import Mathlib

/-!
Verification development for the pi-router network reconciliation core
(backend/services/network_service.py, backend/services/system_service.py,
backend/database/db.py, backend/config/models.py, backend/api/routes/config.py).

Each Python function the claims touch is embedded as an executable Lean
definition over explicit environments: every external-process invocation is
represented by its outcome (exit code and captured streams), file writes by
their possible exception, and the SQLite `devices` table by a list of rows.
Machine behaviour that Python leaves implicit (exceptions, float truncation)
is modelled explicitly where it matters and noted where it cannot.
-/

namespace PiRouter

/-! ## Command executor (NetworkService.run_command / SystemService.run_command)

Both services implement the identical contract: spawn the process, wait with a
timeout, decode the streams; `asyncio.TimeoutError` becomes
`(False, "", "Command timed out")` and any other exception (missing binary,
permission error) becomes `(False, "", str(e))`. -/

/-- Outcome of attempting to spawn and wait for one external process. -/
inductive ProcOutcome where
  /-- The process ran to completion with this exit code, stdout and stderr. -/
  | completed (returncode : Int) (stdout stderr : String)
  /-- `asyncio.wait_for` timed out. -/
  | timedOut
  /-- Launch failed with this exception text (missing binary, permission). -/
  | launchError (msg : String)
deriving Repr, DecidableEq

/-- `(success, stdout, stderr)` triple returned by `run_command`. -/
abbrev CmdRes := Bool × String × String

/-- Embeds `NetworkService.run_command` (network_service.py lines 28-54);
`SystemService.run_command` (system_service.py lines 15-31) is behaviourally
identical. Totality of this Lean function models "never raises". -/
def run_command : ProcOutcome → CmdRes
  | .completed rc out err => (rc == 0, out, err)
  | .timedOut => (false, "", "Command timed out")
  | .launchError e => (false, "", e)

/-! ## Substring machinery

Python's `in` operator on strings and the fixed-literal parts of the
`re.search` patterns reduce to substring containment; we implement it
executably over `List Char`. -/

/-- `hasPre n l` holds when the needle `n` is an initial segment of `l`. -/
def hasPre : List Char → List Char → Bool
  | [], _ => true
  | _ :: _, [] => false
  | a :: n, b :: l => a == b && hasPre n l

/-- `containsSub n l`: the needle `n` occurs contiguously somewhere in `l`. -/
def containsSub (n : List Char) : List Char → Bool
  | [] => n.isEmpty
  | c :: l => hasPre n (c :: l) || containsSub n l

/-- Python `needle in hay` for strings. -/
def containsStr (hay needle : String) : Bool :=
  containsSub needle.data hay.data

/-- Python `s.lower()`: character-wise lowering, which coincides with
Python on the ASCII tool output this system scrapes. -/
def strLower (s : String) : String := String.mk (s.data.map Char.toLower)

deriving instance DecidableEq for Except

/-! ## Config artifact generators -/

/-- Record backing `generate_hostapd_config`'s `ap_config` dict argument. -/
structure APConfigData where
  ssid : String
  hw_mode : String
  channel : Int
  country : String
  password : String
deriving Repr, DecidableEq

/-- Embeds `NetworkService.generate_hostapd_config` (network_service.py
lines 172-187): a pure f-string template. -/
def generate_hostapd_config (c : APConfigData) : String :=
  "# Pi Router AP Configuration\ninterface=wlan1\ndriver=nl80211\nssid="
    ++ c.ssid
    ++ "\nhw_mode=" ++ c.hw_mode
    ++ "\nchannel=" ++ toString c.channel
    ++ "\ncountry_code=" ++ c.country
    ++ "\nauth_algs=1\nwpa=2\nwpa_passphrase=" ++ c.password
    ++ "\nwpa_key_mgmt=WPA-PSK\nwpa_pairwise=CCMP\nrsn_pairwise=CCMP\n"

/-- Embeds `NetworkService.generate_wpa_supplicant_config` (network_service.py
lines 240-252). -/
def generate_wpa_supplicant_config (ssid password country : String) : String :=
  "country=" ++ country
    ++ "\nctrl_interface=DIR=/var/run/wpa_supplicant GROUP=netdev\nupdate_config=1\n\nnetwork=\x7b\n    ssid=\""
    ++ ssid
    ++ "\"\n    psk=\"" ++ password
    ++ "\"\n    key_mgmt=WPA-PSK\n\x7d\n"

/-! ## Uplink status reader (NetworkService.get_wlan0_status)

The reader shells out to `iwconfig wlan0`, `ip -o -4 addr show wlan0` and
`ip route show default` and scrapes each stdout with `re.search`.  The four
patterns are embedded as executable leftmost-match searches; greedy
backtracking inside a digit run is omitted where it provably cannot change
whether (or what) the pattern matches. -/

/-- Python `\s` for the tool outputs at hand (`\f`/`\v` never occur). -/
def isWS (c : Char) : Bool := c == ' ' || c == '\t' || c == '\n' || c == '\r'

/-- Decimal value of a digit run, as matched by `\d+`. -/
def digitsToNat (ds : List Char) : Nat :=
  ds.foldl (fun n c => n * 10 + (c.toNat - '0'.toNat)) 0

/-- Attempt `ESSID:"([^"]+)"` exactly at the head of the text, returning the
capture group. -/
def essidMatchAt (cs : List Char) : Option String :=
  if hasPre "ESSID:\"".data cs then
    let rest := cs.drop 7
    let cap := rest.takeWhile (fun c => c != '"')
    if cap.isEmpty then none
    else if (rest.drop cap.length).head? = some '"' then some (String.mk cap)
    else none
  else none

/-- `re.search(r'ESSID:"([^"]+)"', text)`: leftmost match. -/
def searchESSID : List Char → Option String
  | [] => none
  | c :: cs =>
    match essidMatchAt (c :: cs) with
    | some s => some s
    | none => searchESSID cs

/-- Attempt `Link Quality=(\d+)/(\d+)` at the head of the text. -/
def lqMatchAt (cs : List Char) : Option (Nat × Nat) :=
  if hasPre "Link Quality=".data cs then
    let rest := cs.drop 13
    let d1 := rest.takeWhile Char.isDigit
    if d1.isEmpty then none
    else
      match rest.drop d1.length with
      | '/' :: rest2 =>
        let d2 := rest2.takeWhile Char.isDigit
        if d2.isEmpty then none else some (digitsToNat d1, digitsToNat d2)
      | _ => none
  else none

/-- `re.search(r'Link Quality=(\d+)/(\d+)', text)`: leftmost match. -/
def searchLQ : List Char → Option (Nat × Nat)
  | [] => none
  | c :: cs =>
    match lqMatchAt (c :: cs) with
    | some q => some q
    | none => searchLQ cs

/-- Attempt `(\d+\.\d+\.\d+\.\d+)` at the head of the text, returning the
matched dotted quad. -/
def ipQuadAt (cs : List Char) : Option String :=
  let d1 := cs.takeWhile Char.isDigit
  if d1.isEmpty then none
  else
    match cs.drop d1.length with
    | '.' :: r1 =>
      let d2 := r1.takeWhile Char.isDigit
      if d2.isEmpty then none
      else
        match r1.drop d2.length with
        | '.' :: r2 =>
          let d3 := r2.takeWhile Char.isDigit
          if d3.isEmpty then none
          else
            match r2.drop d3.length with
            | '.' :: r3 =>
              let d4 := r3.takeWhile Char.isDigit
              if d4.isEmpty then none
              else some (String.mk
                (d1 ++ '.' :: d2 ++ '.' :: d3 ++ '.' :: d4))
            | _ => none
        | _ => none
    | _ => none

/-- Attempt `inet\s+(\d+\.\d+\.\d+\.\d+)` at the head of the text. -/
def inetMatchAt (cs : List Char) : Option String :=
  if hasPre "inet".data cs then
    let rest := cs.drop 4
    let w := rest.takeWhile isWS
    if w.isEmpty then none else ipQuadAt (rest.drop w.length)
  else none

/-- `re.search(r'inet\s+(\d+\.\d+\.\d+\.\d+)', text)`: leftmost match. -/
def searchInet : List Char → Option String
  | [] => none
  | c :: cs =>
    match inetMatchAt (c :: cs) with
    | some s => some s
    | none => searchInet cs

/-- Suffixes of the text reachable by `.*` (which never consumes a newline),
listed from the shortest consumption to the longest. -/
def nnSuffixes : List Char → List (List Char)
  | [] => [[]]
  | c :: cs => (c :: cs) :: (if c == '\n' then [] else nnSuffixes cs)

/-- Does `dev\s+wlan0` match at the head of the text? -/
def devTailAt (cs : List Char) : Bool :=
  hasPre "dev".data cs &&
    (let rest := cs.drop 3
     let w := rest.takeWhile isWS
     !w.isEmpty && hasPre "wlan0".data (rest.drop w.length))

/-- After a candidate `via`: match `\s+(quad).*dev\s+wlan0`, returning the
captured gateway. -/
def viaTail (cs : List Char) : Option String :=
  let w := cs.takeWhile isWS
  if w.isEmpty then none
  else
    match ipQuadAt (cs.drop w.length) with
    | none => none
    | some q =>
      let rest := (cs.drop w.length).drop q.length
      if ((nnSuffixes rest).reverse).any devTailAt then some q else none

/-- Attempt `default.*via\s+(quad).*dev\s+wlan0` at the head of the text;
the greedy `.*` is realised by trying the longest consumption first. -/
def gwMatchAt (cs : List Char) : Option String :=
  if hasPre "default".data cs then
    ((nnSuffixes (cs.drop 7)).reverse).findSome? fun s =>
      if hasPre "via".data s then viaTail (s.drop 3) else none
  else none

/-- `re.search(r'default.*via\s+(\d+\.\d+\.\d+\.\d+).*dev\s+wlan0', text)`. -/
def searchGW : List Char → Option String
  | [] => none
  | c :: cs =>
    match gwMatchAt (c :: cs) with
    | some s => some s
    | none => searchGW cs

/-- Outcomes of the three processes `get_wlan0_status` spawns. -/
structure Wlan0Env where
  /-- Outcome of `iwconfig wlan0`. -/
  iwconfig : ProcOutcome
  /-- Outcome of `ip -o -4 addr show wlan0`. -/
  ipAddr : ProcOutcome
  /-- Outcome of `ip route show default`. -/
  ipRoute : ProcOutcome
deriving Repr, DecidableEq

/-- The status dict built by `get_wlan0_status`. -/
structure Wlan0Status where
  connected : Bool
  ssid : Option String
  ip_address : Option String
  gateway : Option String
  signal_strength : Option String
  interface : String
deriving Repr, DecidableEq

/-- Embeds `NetworkService.get_wlan0_status` (network_service.py lines
56-97).  The result is `Except` because the Python body can raise: when the
link-quality pattern matches with a zero total, `int(quality / total * 100)`
raises `ZeroDivisionError` (there is no try/except in this method).  The
float expression `int(quality / total * 100)` is modelled as exact floor
division; IEEE rounding can differ by one unit in cases no claim depends on. -/
def get_wlan0_status (env : Wlan0Env) : Except String Wlan0Status :=
  let (iwOk, iwOut, _) := run_command env.iwconfig
  let ssid : Option String :=
    if iwOk then searchESSID iwOut.data else none
  let connected : Bool :=
    match ssid with
    | some s => !s.isEmpty
    | none => false
  let signal : Except String (Option String) :=
    if iwOk then
      match searchLQ iwOut.data with
      | some (q, t) =>
        if t = 0 then .error "division by zero"
        else .ok (some (toString (q * 100 / t) ++ "%"))
      | none => .ok none
    else .ok none
  match signal with
  | .error e => .error e
  | .ok sig =>
    let (aOk, aOut, _) := run_command env.ipAddr
    let ip : Option String := if aOk then searchInet aOut.data else none
    let (rOk, rOut, _) := run_command env.ipRoute
    let gw : Option String := if rOk then searchGW rOut.data else none
    .ok { connected := connected, ssid := ssid, ip_address := ip,
          gateway := gw, signal_strength := sig, interface := "wlan0" }

/-- "The status reports connected": the `connected` flag of a completed
status query, `false` when the query raises. -/
def wlan0Connected (w : Wlan0Env) : Bool :=
  match get_wlan0_status w with
  | .ok st => st.connected
  | .error _ => false

/-! ## Reconciliation engine: update_uplink (network_service.py lines 254-302) -/

/-- Steps performed by `update_uplink`, in execution order. -/
inductive UStep where
  /-- Pure generation of the wpa_supplicant artifact. -/
  | generate (content : String)
  /-- Write of the staging file `/tmp/wpa_supplicant-wlan0.conf.new`. -/
  | stageWrite
  /-- `chmod 600` on the staging file (result not checked by the source). -/
  | chmodCmd
  /-- `chown root:root` on the staging file (result not checked). -/
  | chownCmd
  /-- `sudo /usr/local/sbin/pi-router-update-uplink <staged>`. -/
  | installCmd
  /-- `sudo systemctl restart wpa_supplicant@wlan0`. -/
  | restartCmd
  /-- `await asyncio.sleep(seconds)`. -/
  | graceWait (seconds : Nat)
  /-- The `get_wlan0_status` re-query. -/
  | statusQuery
deriving Repr, DecidableEq

/-- External world met by one `update_uplink` call. -/
structure UplinkEnv where
  /-- Exception text if the staging-file write raises, else `none`. -/
  writeExc : Option String
  chmodOutcome : ProcOutcome
  chownOutcome : ProcOutcome
  installOutcome : ProcOutcome
  restartOutcome : ProcOutcome
  /-- Environment for the `get_wlan0_status` re-query after the grace wait. -/
  status : Wlan0Env
deriving Repr, DecidableEq

/-- Embeds `NetworkService.update_uplink`.  The whole body is inside
`try/except Exception`, so a staging-write exception or a status-reader
exception is returned as `(False, str(e))`.  Alongside the `(success,
message)` pair the model records the executed step trace. -/
def update_uplink (env : UplinkEnv) (ssid password country : String) :
    (Bool × String) × List UStep :=
  let content := generate_wpa_supplicant_config ssid password country
  match env.writeExc with
  | some e => ((false, e), [.generate content, .stageWrite])
  | none =>
    -- chmod/chown are awaited but their results are ignored by the source
    let _ := run_command env.chmodOutcome
    let _ := run_command env.chownOutcome
    let t0 : List UStep := [.generate content, .stageWrite, .chmodCmd, .chownCmd]
    let (iOk, _, iErr) := run_command env.installOutcome
    if !iOk then
      ((false, "Failed to update config: " ++ iErr), t0 ++ [.installCmd])
    else
      let (rOk, _, rErr) := run_command env.restartOutcome
      if !rOk then
        ((false, "Failed to restart wpa_supplicant: " ++ rErr),
          t0 ++ [.installCmd, .restartCmd])
      else
        let t1 := t0 ++ [.installCmd, .restartCmd, .graceWait 5, .statusQuery]
        match get_wlan0_status env.status with
        | .error e => ((false, e), t1)
        | .ok st =>
          if st.connected then
            ((true, "Successfully connected to uplink network"), t1)
          else
            ((false,
              "Configuration updated but not yet connected (check SSID/password)"),
              t1)

/-! ## Reconciliation engine: update_ap_config (network_service.py 304-335)
and the POST /ap route validation (api/routes/config.py 54-78, 148-184;
config/models.py 37-54). -/

/-- Steps performed by `update_ap_config`. -/
inductive APStep where
  /-- Pure generation of the hostapd artifact. -/
  | generate (content : String)
  /-- Write of the staging file `/tmp/hostapd.conf.new`. -/
  | stageWrite
  /-- `sudo /usr/local/sbin/pi-router-update-ap <staged>`. -/
  | installCmd
  /-- `sudo systemctl restart hostapd`. -/
  | restartCmd
deriving Repr, DecidableEq

/-- External world met by one `update_ap_config` call. -/
structure APApplyEnv where
  writeExc : Option String
  installOutcome : ProcOutcome
  restartOutcome : ProcOutcome
deriving Repr, DecidableEq

/-- Embeds `NetworkService.update_ap_config`. -/
def update_ap_config (env : APApplyEnv) (c : APConfigData) :
    (Bool × String) × List APStep :=
  let content := generate_hostapd_config c
  match env.writeExc with
  | some e => ((false, e), [.generate content, .stageWrite])
  | none =>
    let t0 : List APStep := [.generate content, .stageWrite]
    let (iOk, _, iErr) := run_command env.installOutcome
    if !iOk then
      ((false, "Failed to update AP config: " ++ iErr), t0 ++ [.installCmd])
    else
      let (rOk, _, rErr) := run_command env.restartOutcome
      if rOk then
        ((true, "AP configuration updated successfully"),
          t0 ++ [.installCmd, .restartCmd])
      else
        ((false, "Failed to restart hostapd: " ++ rErr),
          t0 ++ [.installCmd, .restartCmd])

/-- Raw body of a POST /ap request (`APUpdateRequest`, config.py lines
54-78).  `channel` is a Python int, hence `Int`. -/
structure APRequest where
  ssid : String
  password : String
  channel : Int
  country : String
  hw_mode : String
deriving Repr, DecidableEq

/-- Embeds the `APUpdateRequest` pydantic validators (ssid non-blank,
password length at least 8, channel between 1 and 13), run by FastAPI before
the handler body executes.  Pydantic collects all field errors into one
ValidationError; the model reports the first in field order, which rejects
exactly the same inputs. -/
def validateAPRequest (r : APRequest) : Except String APRequest :=
  if r.ssid.trim.isEmpty then .error "SSID cannot be empty"
  else if r.password.length < 8 then .error "Password must be at least 8 characters"
  else if ¬ (1 ≤ r.channel ∧ r.channel ≤ 13) then .error "Channel must be between 1 and 13"
  else .ok r

/-- Embeds the `APConfig` pydantic model constraints (config/models.py lines
37-54): ssid 1-32 chars, password 8-63 chars, channel 1-13, country exactly
2 chars, hw_mode among a/b/g/n/ac; the country validator uppercases.  Error
texts are abbreviated; rejection behaviour is identical. -/
def validateAPConfig (c : APConfigData) : Except String APConfigData :=
  if c.ssid.length < 1 ∨ 32 < c.ssid.length then .error "ssid length out of range"
  else if c.password.length < 8 ∨ 63 < c.password.length then .error "password length out of range"
  else if c.channel < 1 ∨ 13 < c.channel then .error "channel out of range"
  else if c.country.length ≠ 2 then .error "country length out of range"
  else if c.hw_mode ∉ ["a", "b", "g", "n", "ac"] then .error "Invalid hw_mode"
  else .ok { c with country := c.country.toUpper }

/-- The POST /ap pipeline: FastAPI validates the request model first; only a
validated request reaches the handler, which calls `update_ap_config` (the
sole place the AP artifact is generated and install/restart commands are
issued). -/
def apUpdatePipeline (env : APApplyEnv) (r : APRequest) :
    (Bool × String) × List APStep :=
  match validateAPRequest r with
  | .error e => ((false, e), [])
  | .ok r =>
    update_ap_config env
      { ssid := r.ssid, hw_mode := r.hw_mode, channel := r.channel,
        country := r.country, password := r.password }

/-! ## Conflict detector / remediator (ensure_wlan1_ap_mode, network_service.py
lines 444-546) and the read-only query (get_interface_conflicts, lines
548-595). -/

/-- The NetworkManager condition shared by both methods:
`"managed: true" in stdout.lower() or "managed" in stdout.lower()`. -/
def nmManaged (stdout : String) : Bool :=
  containsStr (strLower stdout) "managed: true"
    || containsStr (strLower stdout) "managed"

/-- `run_command` invocations issued by `ensure_wlan1_ap_mode`, in order. -/
inductive RemAction where
  | isActiveWpa
  | disableWpa
  | stopWpa
  | nmcliShow
  | mvUdevRule
  | reloadUdev
  | isEnabledHostapd
  | enableHostapd
  | restartHostapd
deriving Repr, DecidableEq

/-- External world met by one `ensure_wlan1_ap_mode` call.  The `/tmp` write
of the udev rule is modelled as succeeding (the method has no try/except, so
a raising write would propagate as an exception rather than a return; no
claim concerns that path).  The two wpa_supplicant conf files are `none`
when absent or unreadable (the source swallows read errors). -/
structure RemEnv where
  wpaActiveOutcome : ProcOutcome
  disableOutcome : ProcOutcome
  stopOutcome : ProcOutcome
  nmcliOutcome : ProcOutcome
  mvOutcome : ProcOutcome
  reloadOutcome : ProcOutcome
  conf1 : Option String
  conf2 : Option String
  hostapdEnabledOutcome : ProcOutcome
  enableOutcome : ProcOutcome
  restartOutcome : ProcOutcome
deriving Repr, DecidableEq

/-- Return value of `ensure_wlan1_ap_mode`: the `(success, message)` pair the
source returns, plus the local `issues`/`fixes` lists and the executed
command trace as instrumentation. -/
structure RemResult where
  ok : Bool
  msg : String
  issues : List String
  fixes : List String
  actions : List RemAction
deriving Repr, DecidableEq

/-- `"wlan1" in content or "interface=wlan1" in content` (lines 512). -/
def confMentions (content : String) : Bool :=
  containsStr content "wlan1" || containsStr content "interface=wlan1"

/-- Step 5 of `ensure_wlan1_ap_mode`: always restart hostapd last. -/
def remStep5 (env : RemEnv) (issues fixes : List String)
    (acts : List RemAction) : RemResult :=
  let (rOk, _, rErr) := run_command env.restartOutcome
  let acts := acts ++ [.restartHostapd]
  if rOk then
    let fixes := fixes ++ ["Restarted hostapd"]
    if issues.isEmpty then
      { ok := true, msg := "wlan1 is correctly configured for AP mode",
        issues := issues, fixes := fixes, actions := acts }
    else
      { ok := true,
        msg := "Fixed " ++ toString issues.length ++ " issue(s): "
          ++ String.intercalate "; " issues ++ ". Fixes: "
          ++ String.intercalate "; " fixes,
        issues := issues, fixes := fixes, actions := acts }
  else
    { ok := false, msg := "Failed to restart hostapd: " ++ rErr,
      issues := issues, fixes := fixes, actions := acts }

/-- Step 4: ensure hostapd is enabled at boot. -/
def remStep4 (env : RemEnv) (issues fixes : List String)
    (acts : List RemAction) : RemResult :=
  let (eOn, _, _) := run_command env.hostapdEnabledOutcome
  let acts := acts ++ [.isEnabledHostapd]
  if !eOn then
    let issues := issues ++ ["hostapd is not enabled"]
    let (enOk, _, enErr) := run_command env.enableOutcome
    let acts2 := acts ++ [.enableHostapd]
    if enOk then
      remStep5 env issues (fixes ++ ["Enabled hostapd service"]) acts2
    else
      { ok := false, msg := "Failed to enable hostapd: " ++ enErr,
        issues := issues, fixes := fixes, actions := acts2 }
  else
    remStep5 env issues fixes acts

/-- Issue string contributed by one wpa_supplicant conf file: present,
readable and mentioning wlan1. -/
def confIssue (path : String) (c : Option String) : List String :=
  match c with
  | some content =>
    if confMentions content then ["wlan1 configured in " ++ path] else []
  | none => []

/-- Fix string contributed by one wpa_supplicant conf file. -/
def confFix (path : String) (c : Option String) : List String :=
  match c with
  | some content =>
    if confMentions content then
      ["Review " ++ path ++ " - ensure wlan1 is not configured"]
    else []
  | none => []

/-- Step 3: flag wpa_supplicant conf files that mention wlan1 (manual review
only — never changes control flow or the command trace).  The source loops
over the two paths appending one issue and one fix per match, in order. -/
def remStep3 (env : RemEnv) (issues fixes : List String)
    (acts : List RemAction) : RemResult :=
  remStep4 env
    (issues
      ++ confIssue "/etc/wpa_supplicant/wpa_supplicant.conf" env.conf1
      ++ confIssue "/etc/wpa_supplicant/wpa_supplicant-wlan1.conf" env.conf2)
    (fixes
      ++ confFix "/etc/wpa_supplicant/wpa_supplicant.conf" env.conf1
      ++ confFix "/etc/wpa_supplicant/wpa_supplicant-wlan1.conf" env.conf2)
    acts

/-- Step 2: NetworkManager check; on the (buggy, see `nmManaged`) managed
condition, stage and install the udev rule, then reload udev rules (reload
result ignored by the source). -/
def remStep2 (env : RemEnv) (issues fixes : List String)
    (acts : List RemAction) : RemResult :=
  let (nOk, nOut, _) := run_command env.nmcliOutcome
  let acts := acts ++ [.nmcliShow]
  if nOk && nmManaged nOut then
    let issues := issues ++ ["NetworkManager is managing wlan1"]
    let (mOk, _, mErr) := run_command env.mvOutcome
    let acts2 := acts ++ [.mvUdevRule]
    if !mOk then
      { ok := false, msg := "Failed to create udev rule: " ++ mErr,
        issues := issues, fixes := fixes, actions := acts2 }
    else
      let _ := run_command env.reloadOutcome
      remStep3 env issues
        (fixes ++ ["Created udev rule to unmanage wlan1", "Reloaded udev rules"])
        (acts2 ++ [.reloadUdev])
  else
    remStep3 env issues fixes acts

/-- Embeds `NetworkService.ensure_wlan1_ap_mode` (lines 444-546), split into
one helper per checklist step; early `return False, ...` paths carry the
issues/fixes accumulated so far as instrumentation. -/
def ensure_wlan1_ap_mode (env : RemEnv) : RemResult :=
  let (wpaOn, _, _) := run_command env.wpaActiveOutcome
  if wpaOn then
    let issues := ["wpa_supplicant@wlan1 is running (should be disabled)"]
    let (dOk, _, dErr) := run_command env.disableOutcome
    if !dOk then
      { ok := false, msg := "Failed to disable wpa_supplicant@wlan1: " ++ dErr,
        issues := issues, fixes := [],
        actions := [.isActiveWpa, .disableWpa] }
    else
      let (sOk, _, sErr) := run_command env.stopOutcome
      if !sOk then
        { ok := false, msg := "Failed to stop wpa_supplicant@wlan1: " ++ sErr,
          issues := issues, fixes := ["Disabled wpa_supplicant@wlan1"],
          actions := [.isActiveWpa, .disableWpa, .stopWpa] }
      else
        remStep2 env issues
          ["Disabled wpa_supplicant@wlan1", "Stopped wpa_supplicant@wlan1"]
          [.isActiveWpa, .disableWpa, .stopWpa]
  else
    remStep2 env [] [] [.isActiveWpa]

/-- External world met by one `get_interface_conflicts` call. -/
structure ConflictsEnv where
  wpaActiveOutcome : ProcOutcome
  nmcliOutcome : ProcOutcome
  hostapdActiveOutcome : ProcOutcome
  iwconfigOutcome : ProcOutcome
deriving Repr, DecidableEq

/-- The dict returned by `get_interface_conflicts`. -/
structure Conflicts where
  wlan1_as_client : Bool
  wpa_supplicant_on_wlan1 : Bool
  networkmanager_managing_wlan1 : Bool
  hostapd_running : Bool
  warnings : List String
  recommendations : List String
deriving Repr, DecidableEq

/-- Embeds `NetworkService.get_interface_conflicts` (lines 548-595). -/
def get_interface_conflicts (env : ConflictsEnv) : Conflicts :=
  let (wpaOn, _, _) := run_command env.wpaActiveOutcome
  let w1 := if wpaOn then
    ["wpa_supplicant@wlan1 is running - this will prevent AP mode"] else []
  let r1 := if wpaOn then
    ["Disable: sudo systemctl disable --now wpa_supplicant@wlan1"] else []
  let (nOk, nOut, _) := run_command env.nmcliOutcome
  let nmFlag := nOk && nmManaged nOut
  let w2 := w1 ++ (if nmFlag then ["NetworkManager is managing wlan1"] else [])
  let r2 := r1 ++ (if nmFlag then ["Add udev rule to unmanage wlan1"] else [])
  let (hOn, _, _) := run_command env.hostapdActiveOutcome
  let w3 := w2 ++ (if !hOn then ["hostapd is not running"] else [])
  let r3 := r2 ++ (if !hOn then ["Enable: sudo systemctl enable --now hostapd"] else [])
  let (iwOk, iwOut, _) := run_command env.iwconfigOutcome
  let clientFlag := iwOk && (containsStr iwOut "ESSID:" && !containsStr iwOut "Mode:Master")
  let w4 := w3 ++ (if clientFlag then ["wlan1 appears to be in client mode"] else [])
  let r4 := r3 ++ (if clientFlag then ["Run interface cleanup to restore AP mode"] else [])
  { wlan1_as_client := clientFlag, wpa_supplicant_on_wlan1 := wpaOn,
    networkmanager_managing_wlan1 := nmFlag, hostapd_running := hOn,
    warnings := w4, recommendations := r4 }

/-! ## Lease parser (get_dhcp_leases, network_service.py lines 144-170)

The method obtains the lease text (tool output, falling back to the lease
file) and parses it line by line; the parsing core below is what the claims
address. -/

/-- One parsed lease record. -/
structure Lease where
  mac : String
  ip : String
  hostname : String
  expires : String
deriving Repr, DecidableEq

/-- Accumulator-based tokeniser: `acc` holds the reversed pending token. -/
def wsTokensAux : List Char → List Char → List (List Char)
  | [], acc => if acc.isEmpty then [] else [acc.reverse]
  | c :: cs, acc =>
    if isWS c then
      if acc.isEmpty then wsTokensAux cs []
      else acc.reverse :: wsTokensAux cs []
    else wsTokensAux cs (c :: acc)

/-- Maximal runs of non-whitespace characters, in order: the token list
produced by Python `line.split()` with no argument. -/
def wsTokens (cs : List Char) : List (List Char) := wsTokensAux cs []

/-- Python `line.split()`: whitespace-run tokenisation, no empty pieces. -/
def splitWS (line : String) : List String :=
  (wsTokens line.data).map (fun t => String.mk t)

/-- Python `not line.strip()`: true iff the line has no non-whitespace
character. -/
def isBlank (line : String) : Bool := line.data.all isWS

/-- Per-line parse: skip blank lines (`if not line.strip(): continue`), keep
lines with at least five whitespace-separated fields
(`if len(parts) >= 5`), taking expiry, MAC, IP and hostname-or-`*` from the
first four. -/
def parseLeaseLine (line : String) : Option Lease :=
  if isBlank line then none
  else
    match splitWS line with
    | e :: m :: i :: h :: _ :: _ =>
      some { mac := m, ip := i,
             hostname := if h = "*" then "Unknown" else h, expires := e }
    | _ => none

/-- Python `s.strip()` on a character list. -/
def pyStrip (cs : List Char) : List Char :=
  ((cs.dropWhile isWS).reverse.dropWhile isWS).reverse

/-- Python `s.split('\n')`: `acc` holds the reversed pending line. -/
def splitNLAux : List Char → List Char → List (List Char)
  | [], acc => [acc.reverse]
  | c :: cs, acc =>
    if c == '\n' then acc.reverse :: splitNLAux cs []
    else splitNLAux cs (c :: acc)

/-- `stdout.strip().split('\n')` then the per-line parse. -/
def parseLeases (stdout : String) : List Lease :=
  ((splitNLAux (pyStrip stdout.data) []).map (fun l => String.mk l)).filterMap
    parseLeaseLine

/-! ## Device store (backend/database/db.py)

Rows of the SQLite `devices` table; timestamps are modelled as integer
seconds (datetime values are totally ordered, which is all the code uses;
CURRENT_TIMESTAMP becomes the explicit `now` argument). -/

/-- One row of the `devices` table. -/
structure DeviceRow where
  mac : String
  ip : Option String
  hostname : Option String
  first_seen : Int
  last_seen : Int
  is_online : Bool
deriving Repr, DecidableEq

/-- Python `hostname or "Unknown"`: `None` and the empty string are falsy. -/
def pyOr (h : Option String) : String :=
  match h with
  | none => "Unknown"
  | some s => if s.isEmpty then "Unknown" else s

/-- Effect of `UPDATE devices SET ip = ?, hostname = ?, last_seen =
CURRENT_TIMESTAMP, is_online = 1 WHERE mac = ?` on one row. -/
def sightingUpdate (now : Int) (mac : String) (ip : Option String)
    (hostname : Option String) (d : DeviceRow) : DeviceRow :=
  if d.mac = mac then
    { d with
      ip := ip, hostname := some (pyOr hostname),
      last_seen := now, is_online := true }
  else d

/-- Embeds `Database.update_device` (db.py lines 168-189): SELECT existence
check, then UPDATE of the matching row(s) or INSERT of a fresh row with
`first_seen = last_seen = now`. -/
def update_device (now : Int) (db : List DeviceRow) (mac : String)
    (ip : Option String) (hostname : Option String) : List DeviceRow :=
  if db.any (fun d => d.mac = mac) then
    db.map (sightingUpdate now mac ip hostname)
  else
    db ++ [{ mac := mac, ip := ip, hostname := some (pyOr hostname),
             first_seen := now, last_seen := now, is_online := true }]

/-- Listing entry built by `get_devices` (timestamps kept as integers; the
source renders them with `isoformat()`, an injective formatting detail). -/
structure DeviceEntry where
  mac : String
  ip : Option String
  hostname : Option String
  first_seen : Int
  last_seen : Int
  is_online : Bool
  time_ago : String
deriving Repr, DecidableEq

/-- Embeds `Database._time_ago` (db.py lines 242-257); for the non-negative
spans reaching the division branches, Python's truncating `int()` agrees
with integer floor division. -/
def time_ago (now t : Int) : String :=
  let seconds := now - t
  if seconds < 60 then "just now"
  else if seconds < 3600 then toString (seconds / 60) ++ "m ago"
  else if seconds < 86400 then toString (seconds / 3600) ++ "h ago"
  else toString (seconds / 86400) ++ "d ago"

/-- Per-row body of the `get_devices` loop: classify online-now from
`last_seen` (`last_seen_dt > now - 5 minutes`), skip rows that are neither
online-now nor within the display window, and project the rest. -/
def deviceRowEntry (now win : Int) (d : DeviceRow) : Option DeviceEntry :=
  let onlineNow : Bool := decide (now - 5 * 60 < d.last_seen)
  if !onlineNow && decide (d.last_seen < now - win * 60) then none
  else
    some { mac := d.mac, ip := d.ip, hostname := d.hostname,
           first_seen := d.first_seen, last_seen := d.last_seen,
           is_online := onlineNow, time_ago := time_ago now d.last_seen }

/-- Embeds `Database.get_devices` (db.py lines 191-240): a SELECT (the SQL
orders rows by last_seen DESC; the model receives them as given) followed by
the pure per-row filter and projection.  The method issues no UPDATE or
DELETE, made explicit by returning the unchanged table alongside the
listing.  The default `offline_timeout_minutes` is 30. -/
def get_devices (now : Int) (db : List DeviceRow) (win : Int) :
    List DeviceRow × List DeviceEntry :=
  (db, db.filterMap (deviceRowEntry now win))

/-- Does a configuration record pass the `APConfig` pydantic validation? -/
def apConfigValid (c : APConfigData) : Bool :=
  match validateAPConfig c with
  | .ok _ => true
  | .error _ => false

/-- Common specification shape for the tail of the remediation checklist,
entered with the issues/fixes/actions accumulated so far: the issues list is
only extended, never with the station-manager issue string; the action trace
is only extended; failure comes only from the udev-install, enable or
restart command; when those commands succeed the call succeeds; and the
hostapd restart, once issued, is the final action. -/
def RemStepSpec (env : RemEnv) (issues : List String)
    (acts : List RemAction) (r : RemResult) : Prop :=
  ∃ ex tail,
    r.issues = issues ++ ex ∧
    "wpa_supplicant@wlan1 is running (should be disabled)" ∉ ex ∧
    r.actions = acts ++ tail ∧
    (r.ok = false →
      (run_command env.mvOutcome).1 = false ∨
      (run_command env.enableOutcome).1 = false ∨
      (run_command env.restartOutcome).1 = false) ∧
    ((run_command env.mvOutcome).1 = true ∧
      (run_command env.enableOutcome).1 = true ∧
      (run_command env.restartOutcome).1 = true → r.ok = true) ∧
    ((run_command env.mvOutcome).1 = true ∧
      (run_command env.enableOutcome).1 = true →
      r.actions.getLast? = some RemAction.restartHostapd) ∧
    (RemAction.restartHostapd ∈ r.actions →
      r.actions.getLast? = some RemAction.restartHostapd)

/-! # Theorems -/

/-! ## Substring helper lemmas -/

theorem hasPre_append (n m : List Char) : hasPre n (n ++ m) = true := by
  induction n with
  | nil => rfl
  | cons a n ih => simp [hasPre, ih]

theorem containsSub_of_hasPre {n l : List Char} (h : hasPre n l = true) :
    containsSub n l = true := by
  cases l with
  | nil =>
    cases n with
    | nil => rfl
    | cons a n => simp [hasPre] at h
  | cons c l => simp [containsSub, h]

theorem containsSub_cons {n l : List Char} (c : Char)
    (h : containsSub n l = true) : containsSub n (c :: l) = true := by
  simp [containsSub, h]

theorem containsSub_append_left {n l : List Char} (a : List Char)
    (h : containsSub n l = true) : containsSub n (a ++ l) = true := by
  induction a with
  | nil => simpa using h
  | cons c a ih => simpa using containsSub_cons c ih

theorem containsSub_mid (a n b : List Char) :
    containsSub n (a ++ (n ++ b)) = true :=
  containsSub_append_left a (containsSub_of_hasPre (hasPre_append n b))

theorem containsStr_parts (hay s : String) (l₁ l₂ : List Char)
    (h : hay.data = l₁ ++ (s.data ++ l₂)) : containsStr hay s = true := by
  unfold containsStr
  rw [h]
  exact containsSub_mid _ _ _

/-! ## Claim C2 — command executor error reporting -/

/-- Claim C2, counterexample: the claim names the timeout sentinel stderr
message as "command timed out", but the executor's sentinel is
"Command timed out" (capital C), so the claimed sentinel never appears. -/
theorem C2_timeout_sentinel_counterexample :
    (run_command ProcOutcome.timedOut).2.2 ≠ "command timed out" := by
  decide

/-- Claim C2 (amended): `run_command` never raises (it is a total function
of the process outcome); a non-zero exit is reported as `success = false`
with the captured stderr; a timeout is reported as `success = false` with
the sentinel stderr message "Command timed out"; a launch failure is
reported as `success = false` with the underlying error text as stderr. -/
theorem C2_run_command_reports_failures :
    (∀ rc out err, rc ≠ 0 →
      run_command (.completed rc out err) = (false, out, err)) ∧
    run_command .timedOut = (false, "", "Command timed out") ∧
    (∀ e, run_command (.launchError e) = (false, "", e)) := by
  refine ⟨fun rc out err h => ?_, rfl, fun e => rfl⟩
  simp [run_command, h]

/-- Witness for `C2_run_command_reports_failures` at exit code 1. -/
theorem C2_run_command_reports_failures_witness :
    run_command (.completed 1 "out" "err") = (false, "out", "err") :=
  C2_run_command_reports_failures.1 1 "out" "err" (by decide)

/-! ## Claim C3 — AP artifact generator -/

/-- Claim C3: for every valid AP config record, the generated hostapd
artifact contains exactly the supplied SSID, channel, country and
passphrase values, unmodified; and the generator is a pure deterministic
function, so two calls with equal config records produce byte-identical
artifact content. -/
theorem C3_generateAPArtifact_exact_fields (c : APConfigData)
    (_hv : apConfigValid c = true) :
    containsStr (generate_hostapd_config c) c.ssid = true ∧
    containsStr (generate_hostapd_config c) (toString c.channel) = true ∧
    containsStr (generate_hostapd_config c) c.country = true ∧
    containsStr (generate_hostapd_config c) c.password = true ∧
    (∀ c' : APConfigData, c' = c →
      generate_hostapd_config c' = generate_hostapd_config c) := by
  refine ⟨?_, ?_, ?_, ?_, fun c' h => by rw [h]⟩
  · exact containsStr_parts _ _
      "# Pi Router AP Configuration\ninterface=wlan1\ndriver=nl80211\nssid=".data
      ("\nhw_mode=" ++ c.hw_mode ++ "\nchannel=" ++ toString c.channel
        ++ "\ncountry_code=" ++ c.country
        ++ "\nauth_algs=1\nwpa=2\nwpa_passphrase=" ++ c.password
        ++ "\nwpa_key_mgmt=WPA-PSK\nwpa_pairwise=CCMP\nrsn_pairwise=CCMP\n").data
      (by simp [generate_hostapd_config])
  · exact containsStr_parts _ _
      ("# Pi Router AP Configuration\ninterface=wlan1\ndriver=nl80211\nssid="
        ++ c.ssid ++ "\nhw_mode=" ++ c.hw_mode ++ "\nchannel=").data
      ("\ncountry_code=" ++ c.country
        ++ "\nauth_algs=1\nwpa=2\nwpa_passphrase=" ++ c.password
        ++ "\nwpa_key_mgmt=WPA-PSK\nwpa_pairwise=CCMP\nrsn_pairwise=CCMP\n").data
      (by simp [generate_hostapd_config])
  · exact containsStr_parts _ _
      ("# Pi Router AP Configuration\ninterface=wlan1\ndriver=nl80211\nssid="
        ++ c.ssid ++ "\nhw_mode=" ++ c.hw_mode ++ "\nchannel="
        ++ toString c.channel ++ "\ncountry_code=").data
      ("\nauth_algs=1\nwpa=2\nwpa_passphrase=" ++ c.password
        ++ "\nwpa_key_mgmt=WPA-PSK\nwpa_pairwise=CCMP\nrsn_pairwise=CCMP\n").data
      (by simp [generate_hostapd_config])
  · exact containsStr_parts _ _
      ("# Pi Router AP Configuration\ninterface=wlan1\ndriver=nl80211\nssid="
        ++ c.ssid ++ "\nhw_mode=" ++ c.hw_mode ++ "\nchannel="
        ++ toString c.channel ++ "\ncountry_code=" ++ c.country
        ++ "\nauth_algs=1\nwpa=2\nwpa_passphrase=").data
      "\nwpa_key_mgmt=WPA-PSK\nwpa_pairwise=CCMP\nrsn_pairwise=CCMP\n".data
      (by simp [generate_hostapd_config])

/-- Witness for `C3_generateAPArtifact_exact_fields` at the factory-default
AP configuration. -/
theorem C3_generateAPArtifact_exact_fields_witness :
    apConfigValid
      { ssid := "PiRouter-AP", hw_mode := "g", channel := 6,
        country := "US", password := "SecurePass123" } = true ∧
    containsStr
      (generate_hostapd_config
        { ssid := "PiRouter-AP", hw_mode := "g", channel := 6,
          country := "US", password := "SecurePass123" }) "PiRouter-AP" = true :=
  ⟨by decide,
    (C3_generateAPArtifact_exact_fields _ (by decide)).1⟩

/-! ## Claim C6 — NetworkManager "managed" detection -/

/-- Claim C6, evaluated at the failing input: nmcli output that describes
wlan1 as `unmanaged` nonetheless triggers the "connection manager is
managing the AP interface" conflict in both the read-only query and the
remediator, because `"managed" in stdout.lower()` also matches the
substring inside "unmanaged".  The claim (and the code's own intent,
whose first disjunct tests `"managed: true"`) says such output must not
trigger the conflict. -/
theorem C6_unmanaged_output_triggers_conflict :
    nmManaged "GENERAL.STATE: 10 (unmanaged)" = true ∧
    (get_interface_conflicts
      { wpaActiveOutcome := .completed 3 "" "",
        nmcliOutcome := .completed 0 "GENERAL.STATE: 10 (unmanaged)" "",
        hostapdActiveOutcome := .completed 0 "active" "",
        iwconfigOutcome := .completed 1 "" ""
      }).networkmanager_managing_wlan1 = true ∧
    "NetworkManager is managing wlan1" ∈
      (ensure_wlan1_ap_mode
        { wpaActiveOutcome := .completed 3 "" "",
          disableOutcome := .completed 0 "" "",
          stopOutcome := .completed 0 "" "",
          nmcliOutcome := .completed 0 "GENERAL.STATE: 10 (unmanaged)" "",
          mvOutcome := .completed 0 "" "",
          reloadOutcome := .completed 0 "" "",
          conf1 := none, conf2 := none,
          hostapdEnabledOutcome := .completed 0 "enabled" "",
          enableOutcome := .completed 0 "" "",
          restartOutcome := .completed 0 "" ""
        }).issues := by
  decide

/-! ## Claim C7 — lease line parser -/

/-- Claim C7, counterexample: a line holding exactly the four fields the
claim lists (expiry, MAC, IP, hostname) produces no record, because the
parser keeps only lines with at least five whitespace-separated fields
(`len(parts) >= 5`, matching dnsmasq's trailing client-id field). -/
theorem C7_four_field_line_counterexample :
    parseLeaseLine "1700000043 aa:bb:cc:dd:ee:ff 10.42.0.50 phone" = none ∧
    parseLeases "1700000043 aa:bb:cc:dd:ee:ff 10.42.0.50 phone" = [] := by
  decide

theorem wsTokens_nil_of_all {cs : List Char} (h : cs.all isWS = true) :
    wsTokens cs = [] := by
  unfold wsTokens
  induction cs with
  | nil => rfl
  | cons c cs ih =>
    simp only [List.all_cons, Bool.and_eq_true] at h
    simp [wsTokensAux, h.1, ih h.2]

/-- Claim C7 (amended): for every lease-table line with at least five
whitespace-separated fields — expiry, MAC, IP, hostname-or-`*`, client-id —
the parser produces a record with mac, ip and expires taken from those
fields and hostname equal to the fourth field, or "Unknown" when it is
`*`; a line with fewer than five fields, and in particular a blank line,
produces no record. -/
theorem C7_lease_parser_amended :
    (∀ line e m i h c rest, splitWS line = e :: m :: i :: h :: c :: rest →
      parseLeaseLine line =
        some { mac := m, ip := i,
               hostname := if h = "*" then "Unknown" else h, expires := e }) ∧
    (∀ line, (splitWS line).length < 5 → parseLeaseLine line = none) ∧
    (∀ line, isBlank line = true → parseLeaseLine line = none) := by
  refine ⟨?_, ?_, ?_⟩
  · intro line e m i h c rest hs
    have hb : isBlank line = false := by
      cases hbv : isBlank line with
      | false => rfl
      | true =>
        exfalso
        have : splitWS line = [] := by
          simp [splitWS, wsTokens_nil_of_all (by simpa [isBlank] using hbv)]
        rw [this] at hs
        exact List.noConfusion hs
    simp [parseLeaseLine, hb, hs]
  · intro line hlen
    unfold parseLeaseLine
    by_cases hbv : isBlank line
    · simp [hbv]
    · simp only [hbv, Bool.false_eq_true, if_false]
      split
      · rename_i e m i h c rest heq
        rw [heq] at hlen
        simp at hlen
        omega
      · rfl
  · intro line h
    simp [parseLeaseLine, h]

/-- Witness for `C7_lease_parser_amended` on a five-field line with a `*`
hostname. -/
theorem C7_lease_parser_amended_witness :
    splitWS "1700000043 aa:bb:cc:dd:ee:ff 10.42.0.50 * 01:aa" =
      ["1700000043", "aa:bb:cc:dd:ee:ff", "10.42.0.50", "*", "01:aa"] ∧
    parseLeaseLine "1700000043 aa:bb:cc:dd:ee:ff 10.42.0.50 * 01:aa" =
      some { mac := "aa:bb:cc:dd:ee:ff", ip := "10.42.0.50",
             hostname := "Unknown", expires := "1700000043" } := by
  refine ⟨by decide, ?_⟩
  have := C7_lease_parser_amended.1
    "1700000043 aa:bb:cc:dd:ee:ff 10.42.0.50 * 01:aa"
    "1700000043" "aa:bb:cc:dd:ee:ff" "10.42.0.50" "*" "01:aa" [] (by decide)
  simpa using this

/-! ## Claim C9 — uplink status reader robustness -/

/-- Claim C9, evaluated at the failing input: link-tool output with no
ESSID marker but a zero-total link-quality ratio makes the status reader
raise ZeroDivisionError (`int(quality / total * 100)` with `total = 0`)
instead of returning a record with null fields, contradicting the claimed
"never raises". -/
theorem C9_status_reader_division_bug :
    containsStr "Link Quality=5/0  Signal level=-40 dBm" "ESSID:" = false ∧
    get_wlan0_status
      { iwconfig := .completed 0 "Link Quality=5/0  Signal level=-40 dBm" "",
        ipAddr := .completed 0 "" "",
        ipRoute := .completed 0 "" "" } = .error "division by zero" := by
  decide

/-! ## Claim C10 — short AP passwords rejected before any effect -/

/-- Claim C10: for every AP configuration input whose password is shorter
than 8 characters, validation rejects the input — at the request model and
at the `APConfig` model — and the update pipeline performs no step at all:
no artifact is generated and no external command is issued (empty trace),
with an unsuccessful result. -/
theorem C10_short_password_rejected (r : APRequest)
    (h : r.password.length < 8) :
    (∃ e, validateAPRequest r = Except.error e) ∧
    (∀ env : APApplyEnv,
      (apUpdatePipeline env r).2 = [] ∧ (apUpdatePipeline env r).1.1 = false) ∧
    (∀ c : APConfigData, c.password.length < 8 →
      ∃ e, validateAPConfig c = Except.error e) := by
  have hreq : ∃ e, validateAPRequest r = Except.error e := by
    unfold validateAPRequest
    by_cases hb : r.ssid.trim.isEmpty
    · exact ⟨"SSID cannot be empty", by rw [if_pos hb]⟩
    · exact ⟨"Password must be at least 8 characters",
        by rw [if_neg hb, if_pos h]⟩
  refine ⟨hreq, ?_, ?_⟩
  · intro env
    obtain ⟨e, he⟩ := hreq
    simp [apUpdatePipeline, he]
  · intro c hc
    unfold validateAPConfig
    by_cases hs : c.ssid.length < 1 ∨ 32 < c.ssid.length
    · exact ⟨"ssid length out of range", if_pos hs⟩
    · exact ⟨"password length out of range",
        by rw [if_neg hs, if_pos (Or.inl hc)]⟩

/-- Witness for `C10_short_password_rejected` on a 6-character password. -/
theorem C10_short_password_rejected_witness :
    ("pass12" : String).length < 8 ∧
    (apUpdatePipeline
        { writeExc := none, installOutcome := .timedOut,
          restartOutcome := .timedOut }
        { ssid := "MyAP", password := "pass12", channel := 6,
          country := "US", hw_mode := "g" }).2 = [] ∧
    (apUpdatePipeline
        { writeExc := none, installOutcome := .timedOut,
          restartOutcome := .timedOut }
        { ssid := "MyAP", password := "pass12", channel := 6,
          country := "US", hw_mode := "g" }).1.1 = false :=
  ⟨by decide,
    (C10_short_password_rejected _ (by decide)).2.1
      { writeExc := none, installOutcome := .timedOut,
        restartOutcome := .timedOut }⟩

/-! ## Claim C8 — device sighting upsert frame conditions -/

/-- Claim C8: upserting a sighting for a MAC that already has a record
rewrites exactly the matching row — setting ip, hostname, `last_seen = now`
and `is_online = true`, preserving the mac key and `first_seen` — and
leaves every other row unchanged; upserting an unseen MAC appends one new
record with `first_seen = last_seen = now` and leaves the rest of the
table untouched. -/
theorem C8_update_device_frame (now : Int) (db : List DeviceRow)
    (mac : String) (ip : Option String) (host : Option String) :
    (db.any (fun d => d.mac = mac) = true →
      update_device now db mac ip host =
        db.map (sightingUpdate now mac ip host) ∧
      (∀ d : DeviceRow, d.mac ≠ mac → sightingUpdate now mac ip host d = d) ∧
      (∀ d : DeviceRow, d.mac = mac →
        sightingUpdate now mac ip host d =
          { d with
            ip := ip, hostname := some (pyOr host),
            last_seen := now, is_online := true }) ∧
      (∀ d : DeviceRow,
        (sightingUpdate now mac ip host d).mac = d.mac ∧
        (sightingUpdate now mac ip host d).first_seen = d.first_seen)) ∧
    (db.any (fun d => d.mac = mac) = false →
      update_device now db mac ip host =
        db ++ [{ mac := mac, ip := ip, hostname := some (pyOr host),
                 first_seen := now, last_seen := now, is_online := true }]) := by
  constructor
  · intro hex
    refine ⟨by simp [update_device, hex], ?_, ?_, ?_⟩
    · intro d hd
      simp [sightingUpdate, hd]
    · intro d hd
      simp [sightingUpdate, hd]
    · intro d
      unfold sightingUpdate
      by_cases hd : d.mac = mac <;> simp [hd]
  · intro hex
    simp [update_device, hex]

/-- Witness for `C8_update_device_frame`: a two-row table where only the
matching row changes. -/
theorem C8_update_device_frame_witness :
    ([{ mac := "aa:bb", ip := none, hostname := none, first_seen := 100,
        last_seen := 100, is_online := false },
      { mac := "cc:dd", ip := none, hostname := none, first_seen := 50,
        last_seen := 50, is_online := false }] :
        List DeviceRow).any (fun d => d.mac = "aa:bb") = true ∧
    update_device 700
        [{ mac := "aa:bb", ip := none, hostname := none, first_seen := 100,
           last_seen := 100, is_online := false },
         { mac := "cc:dd", ip := none, hostname := none, first_seen := 50,
           last_seen := 50, is_online := false }]
        "aa:bb" (some "10.42.0.50") (some "phone") =
      [{ mac := "aa:bb", ip := some "10.42.0.50", hostname := some "phone",
         first_seen := 100, last_seen := 700, is_online := true },
       { mac := "cc:dd", ip := none, hostname := none, first_seen := 50,
         last_seen := 50, is_online := false }] := by
  refine ⟨by decide, ?_⟩
  have := (C8_update_device_frame 700
    [{ mac := "aa:bb", ip := none, hostname := none, first_seen := 100,
       last_seen := 100, is_online := false },
     { mac := "cc:dd", ip := none, hostname := none, first_seen := 50,
       last_seen := 50, is_online := false }]
    "aa:bb" (some "10.42.0.50") (some "phone")).1 (by decide)
  rw [this.1]
  decide

/-! ## Claim C4 — device listing classification and soft-hide -/

/-- Claim C4: during a listing with window `win` minutes the devices table
is left untouched; a row seen less than 5 minutes ago yields an entry with
`is_online = true`; a row seen between 5 minutes and `win` minutes ago
yields an entry with `is_online = false`; a row seen more than `win`
minutes ago that is not online-now yields no entry; and the entry's
`is_online` is computed from `last_seen` at read time, whatever the stored
flag. -/
theorem C4_get_devices_classification (now win : Int) (db : List DeviceRow)
    (d : DeviceRow) (hd : d ∈ db) :
    (get_devices now db win).1 = db ∧
    (now - d.last_seen < 5 * 60 →
      ∃ e, deviceRowEntry now win d = some e ∧ e.is_online = true ∧
        e ∈ (get_devices now db win).2) ∧
    (5 * 60 ≤ now - d.last_seen → now - d.last_seen ≤ win * 60 →
      ∃ e, deviceRowEntry now win d = some e ∧ e.is_online = false ∧
        e ∈ (get_devices now db win).2) ∧
    (win * 60 < now - d.last_seen → ¬ (now - 5 * 60 < d.last_seen) →
      deviceRowEntry now win d = none) ∧
    (∀ e, deviceRowEntry now win d = some e →
      e.is_online = decide (now - 5 * 60 < d.last_seen)) := by
  refine ⟨rfl, ?_, ?_, ?_, ?_⟩
  · intro h5
    have hr : deviceRowEntry now win d = some
        { mac := d.mac, ip := d.ip, hostname := d.hostname,
          first_seen := d.first_seen, last_seen := d.last_seen,
          is_online := true, time_ago := time_ago now d.last_seen } := by
      simp [deviceRowEntry]
      omega
    refine ⟨_, hr, rfl, ?_⟩
    exact List.mem_filterMap.mpr ⟨d, hd, hr⟩
  · intro h5 hw
    have hr : deviceRowEntry now win d = some
        { mac := d.mac, ip := d.ip, hostname := d.hostname,
          first_seen := d.first_seen, last_seen := d.last_seen,
          is_online := false, time_ago := time_ago now d.last_seen } := by
      simp [deviceRowEntry]
      omega
    refine ⟨_, hr, rfl, ?_⟩
    exact List.mem_filterMap.mpr ⟨d, hd, hr⟩
  · intro hw ho
    simp [deviceRowEntry]
    omega
  · intro e he
    simp only [deviceRowEntry] at he
    split at he
    · exact Option.noConfusion he
    · injection he with he
      rw [← he]

/-- Witness for `C4_get_devices_classification`: a device seen 4 minutes
ago is listed online. -/
theorem C4_get_devices_classification_witness :
    ∃ e, deviceRowEntry 10000 30
        { mac := "aa:bb", ip := none, hostname := none, first_seen := 0,
          last_seen := 9760, is_online := false } = some e ∧
      e.is_online = true ∧
      e ∈ (get_devices 10000
        [{ mac := "aa:bb", ip := none, hostname := none, first_seen := 0,
           last_seen := 9760, is_online := false }] 30).2 :=
  (C4_get_devices_classification 10000 30
    [{ mac := "aa:bb", ip := none, hostname := none, first_seen := 0,
       last_seen := 9760, is_online := false }]
    { mac := "aa:bb", ip := none, hostname := none, first_seen := 0,
      last_seen := 9760, is_online := false }
    (by decide)).2.1 (by decide)

/-! ## Claim C1 — uplink reconciliation sequencing -/

/-- Claim C1: `update_uplink` performs, in order, artifact generation, the
staging write, the privileged installer and the service restart; a failing
step skips every remaining step and its error text is surfaced in the
returned message; when all steps succeed, the engine waits the fixed
5-second grace period, re-queries the uplink status, and succeeds if and
only if the status reports connected. -/
theorem C1_update_uplink_sequencing (env : UplinkEnv)
    (ssid password country : String) :
    (∀ e, env.writeExc = some e →
      update_uplink env ssid password country =
        ((false, e),
         [.generate (generate_wpa_supplicant_config ssid password country),
          .stageWrite])) ∧
    (∀ out err, env.writeExc = none →
      run_command env.installOutcome = (false, out, err) →
      update_uplink env ssid password country =
        ((false, "Failed to update config: " ++ err),
         [.generate (generate_wpa_supplicant_config ssid password country),
          .stageWrite, .chmodCmd, .chownCmd, .installCmd])) ∧
    (∀ iout ierr rout rerr, env.writeExc = none →
      run_command env.installOutcome = (true, iout, ierr) →
      run_command env.restartOutcome = (false, rout, rerr) →
      update_uplink env ssid password country =
        ((false, "Failed to restart wpa_supplicant: " ++ rerr),
         [.generate (generate_wpa_supplicant_config ssid password country),
          .stageWrite, .chmodCmd, .chownCmd, .installCmd, .restartCmd])) ∧
    (∀ iout ierr rout rerr, env.writeExc = none →
      run_command env.installOutcome = (true, iout, ierr) →
      run_command env.restartOutcome = (true, rout, rerr) →
      (update_uplink env ssid password country).2 =
        [.generate (generate_wpa_supplicant_config ssid password country),
         .stageWrite, .chmodCmd, .chownCmd, .installCmd, .restartCmd,
         .graceWait 5, .statusQuery] ∧
      ((update_uplink env ssid password country).1.1 = true ↔
        wlan0Connected env.status = true)) := by
  refine ⟨?_, ?_, ?_, ?_⟩
  · intro e hw
    simp [update_uplink, hw]
  · intro out err hw hi
    simp [update_uplink, hw, hi]
  · intro iout ierr rout rerr hw hi hr
    simp [update_uplink, hw, hi, hr]
  · intro iout ierr rout rerr hw hi hr
    unfold update_uplink wlan0Connected
    rw [hw, hi, hr]
    cases hst : get_wlan0_status env.status with
    | error e => simp
    | ok st =>
      cases hc : st.connected <;> simp [hc]

/-- Witness for `C1_update_uplink_sequencing`: an all-success environment
whose re-queried status parses as connected. -/
theorem C1_update_uplink_sequencing_witness :
    (update_uplink
        { writeExc := none,
          chmodOutcome := .completed 0 "" "",
          chownOutcome := .completed 0 "" "",
          installOutcome := .completed 0 "" "",
          restartOutcome := .completed 0 "" "",
          status :=
            { iwconfig := .completed 0 "ESSID:\"HomeNet\"  Link Quality=70/70" "",
              ipAddr := .completed 0 "inet 10.0.0.5" "",
              ipRoute := .completed 0 "default via 10.0.0.1 dev wlan0" "" } }
        "HomeNet" "pass12345" "US").2 =
      [.generate (generate_wpa_supplicant_config "HomeNet" "pass12345" "US"),
       .stageWrite, .chmodCmd, .chownCmd, .installCmd, .restartCmd,
       .graceWait 5, .statusQuery] ∧
    ((update_uplink
        { writeExc := none,
          chmodOutcome := .completed 0 "" "",
          chownOutcome := .completed 0 "" "",
          installOutcome := .completed 0 "" "",
          restartOutcome := .completed 0 "" "",
          status :=
            { iwconfig := .completed 0 "ESSID:\"HomeNet\"  Link Quality=70/70" "",
              ipAddr := .completed 0 "inet 10.0.0.5" "",
              ipRoute := .completed 0 "default via 10.0.0.1 dev wlan0" "" } }
        "HomeNet" "pass12345" "US").1.1 = true ↔
      wlan0Connected
        { iwconfig := .completed 0 "ESSID:\"HomeNet\"  Link Quality=70/70" "",
          ipAddr := .completed 0 "inet 10.0.0.5" "",
          ipRoute := .completed 0 "default via 10.0.0.1 dev wlan0" "" } = true) :=
  (C1_update_uplink_sequencing
      { writeExc := none,
        chmodOutcome := .completed 0 "" "",
        chownOutcome := .completed 0 "" "",
        installOutcome := .completed 0 "" "",
        restartOutcome := .completed 0 "" "",
        status :=
          { iwconfig := .completed 0 "ESSID:\"HomeNet\"  Link Quality=70/70" "",
            ipAddr := .completed 0 "inet 10.0.0.5" "",
            ipRoute := .completed 0 "default via 10.0.0.1 dev wlan0" "" } }
      "HomeNet" "pass12345" "US").2.2.2 "" "" "" "" rfl (by decide) (by decide)

/-! ## Claim C5 — remediator ordering and failure semantics

One specification lemma per checklist step, glued by `RemStepSpec_mono`. -/

theorem RemStepSpec_mono (env : RemEnv) {issues issues' : List String}
    {acts acts' : List RemAction} {r : RemResult}
    (ex₀ : List String) (tail₀ : List RemAction)
    (h : RemStepSpec env issues' acts' r)
    (hi : issues' = issues ++ ex₀) (ha : acts' = acts ++ tail₀)
    (hex : "wpa_supplicant@wlan1 is running (should be disabled)" ∉ ex₀) :
    RemStepSpec env issues acts r := by
  subst hi
  subst ha
  obtain ⟨ex, tail, h1, h2, h3, h4, h5, h6, h7⟩ := h
  refine ⟨ex₀ ++ ex, tail₀ ++ tail, ?_, ?_, ?_, h4, h5, h6, h7⟩
  · rw [h1, List.append_assoc]
  · intro hmem
    rcases List.mem_append.mp hmem with hm | hm
    · exact hex hm
    · exact h2 hm
  · rw [h3, List.append_assoc]

theorem remStep5_spec (env : RemEnv) (issues fixes : List String)
    (acts : List RemAction) :
    RemStepSpec env issues acts (remStep5 env issues fixes acts) := by
  unfold RemStepSpec remStep5
  rcases hre : run_command env.restartOutcome with ⟨rOk, rOut, rErr⟩
  refine ⟨[], [.restartHostapd], ?_⟩
  cases rOk
  · simp [List.getLast?_concat]
  · by_cases hi : issues.isEmpty <;> simp [hi, List.getLast?_concat]

theorem remStep4_spec (env : RemEnv) (issues fixes : List String)
    (acts : List RemAction)
    (hna : RemAction.restartHostapd ∉ acts) :
    RemStepSpec env issues acts (remStep4 env issues fixes acts) := by
  unfold remStep4
  rcases he : run_command env.hostapdEnabledOutcome with ⟨eOn, eOut, eErr⟩
  cases eOn
  · rcases hen : run_command env.enableOutcome with ⟨enOk, enOut, enErr⟩
    cases enOk
    · refine ⟨["hostapd is not enabled"],
        [.isEnabledHostapd, .enableHostapd], by simp, by decide, by simp,
        ?_, ?_, ?_, ?_⟩
      · intro _
        exact Or.inr (Or.inl (by rw [hen]))
      · rintro ⟨-, h2', -⟩
        rw [hen] at h2'
        simp at h2'
      · rintro ⟨-, h2'⟩
        rw [hen] at h2'
        simp at h2'
      · intro hm
        simp at hm
        exact absurd hm hna
    · exact RemStepSpec_mono env ["hostapd is not enabled"]
        [.isEnabledHostapd, .enableHostapd]
        (remStep5_spec env _ _ _) rfl (by simp) (by decide)
  · exact RemStepSpec_mono env [] [.isEnabledHostapd]
      (remStep5_spec env _ _ _) (by simp) rfl (by simp)

theorem not_mem_confIssue (p : String) (c : Option String)
    (hne : ¬ ("wpa_supplicant@wlan1 is running (should be disabled)" =
      "wlan1 configured in " ++ p)) :
    "wpa_supplicant@wlan1 is running (should be disabled)" ∉ confIssue p c := by
  cases c with
  | none => simp [confIssue]
  | some content =>
    by_cases hmn : confMentions content = true <;> simp [confIssue, hmn]
    exact hne

theorem remStep3_spec (env : RemEnv) (issues fixes : List String)
    (acts : List RemAction)
    (hna : RemAction.restartHostapd ∉ acts) :
    RemStepSpec env issues acts (remStep3 env issues fixes acts) := by
  unfold remStep3
  refine RemStepSpec_mono env
    (confIssue "/etc/wpa_supplicant/wpa_supplicant.conf" env.conf1
      ++ confIssue "/etc/wpa_supplicant/wpa_supplicant-wlan1.conf" env.conf2)
    [] (remStep4_spec env _ _ _ hna) (by rw [List.append_assoc])
    (by simp) ?_
  intro hm
  rcases List.mem_append.mp hm with hm | hm
  · exact not_mem_confIssue _ _ (by decide) hm
  · exact not_mem_confIssue _ _ (by decide) hm

theorem remStep2_spec (env : RemEnv) (issues fixes : List String)
    (acts : List RemAction)
    (hna : RemAction.restartHostapd ∉ acts) :
    RemStepSpec env issues acts (remStep2 env issues fixes acts) := by
  unfold remStep2
  rcases hn : run_command env.nmcliOutcome with ⟨nOk, nOut, nErr⟩
  by_cases hcond : (nOk && nmManaged nOut) = true
  · simp only [hcond, eq_self_iff_true, if_true]
    rcases hmv : run_command env.mvOutcome with ⟨mOk, mOut, mErr⟩
    cases mOk
    · refine ⟨["NetworkManager is managing wlan1"],
        [.nmcliShow, .mvUdevRule], by simp, by decide, by simp,
        ?_, ?_, ?_, ?_⟩
      · intro _
        exact Or.inl (by rw [hmv])
      · rintro ⟨h1', -, -⟩
        rw [hmv] at h1'
        simp at h1'
      · rintro ⟨h1', -⟩
        rw [hmv] at h1'
        simp at h1'
      · intro hm
        simp at hm
        exact absurd hm hna
    · exact RemStepSpec_mono env ["NetworkManager is managing wlan1"]
        [.nmcliShow, .mvUdevRule, .reloadUdev]
        (remStep3_spec env _ _ _ (by
          intro hm
          simp at hm
          exact absurd hm hna))
        rfl (by simp) (by decide)
  · simp only [Bool.not_eq_true] at hcond
    simp only [hcond, Bool.false_eq_true, if_false]
    exact RemStepSpec_mono env [] [.nmcliShow]
      (remStep3_spec env _ _ _ (by
        intro hm
        simp at hm
        exact absurd hm hna))
      (by simp) rfl (by simp)

/-- Claim C5: when the station-mode manager is active on the AP interface,
the remediator records exactly one issue for that condition and issues the
disable command before the stop command; the call fails only when a
remediation action (a service-manager or install command) fails — issues
flagged for manual review never fail the call — and the hostapd restart is
always the final action issued. -/
theorem C5_ensure_wlan1_ap_mode_contract (env : RemEnv) :
    ((run_command env.wpaActiveOutcome).1 = true →
      List.count "wpa_supplicant@wlan1 is running (should be disabled)"
        (ensure_wlan1_ap_mode env).issues = 1) ∧
    ((run_command env.wpaActiveOutcome).1 = true →
      (ensure_wlan1_ap_mode env).actions.take 2 =
        [RemAction.isActiveWpa, RemAction.disableWpa] ∧
      ((run_command env.disableOutcome).1 = true →
        (ensure_wlan1_ap_mode env).actions.take 3 =
          [RemAction.isActiveWpa, RemAction.disableWpa, RemAction.stopWpa])) ∧
    ((run_command env.disableOutcome).1 = true ∧
      (run_command env.stopOutcome).1 = true ∧
      (run_command env.mvOutcome).1 = true ∧
      (run_command env.enableOutcome).1 = true ∧
      (run_command env.restartOutcome).1 = true →
      (ensure_wlan1_ap_mode env).ok = true) ∧
    ((ensure_wlan1_ap_mode env).ok = false →
      (run_command env.disableOutcome).1 = false ∨
      (run_command env.stopOutcome).1 = false ∨
      (run_command env.mvOutcome).1 = false ∨
      (run_command env.enableOutcome).1 = false ∨
      (run_command env.restartOutcome).1 = false) ∧
    ((run_command env.disableOutcome).1 = true ∧
      (run_command env.stopOutcome).1 = true ∧
      (run_command env.mvOutcome).1 = true ∧
      (run_command env.enableOutcome).1 = true →
      (ensure_wlan1_ap_mode env).actions.getLast? =
        some RemAction.restartHostapd) ∧
    (RemAction.restartHostapd ∈ (ensure_wlan1_ap_mode env).actions →
      (ensure_wlan1_ap_mode env).actions.getLast? =
        some RemAction.restartHostapd) := by
  rcases hw : run_command env.wpaActiveOutcome with ⟨wOn, wOut, wErr⟩
  cases wOn
  · have hbody : ensure_wlan1_ap_mode env =
        remStep2 env [] [] [.isActiveWpa] := by
      unfold ensure_wlan1_ap_mode
      rw [hw]
      rfl
    rw [hbody]
    obtain ⟨ex, tail, h1, h2, h3, h4, h5, h6, h7⟩ :=
      remStep2_spec env [] [] [.isActiveWpa] (by decide)
    refine ⟨?_, ?_, ?_, ?_, ?_, h7⟩
    · intro h
      exact absurd h (by simp)
    · intro h
      exact absurd h (by simp)
    · rintro ⟨-, -, hm, he, hr⟩
      exact h5 ⟨hm, he, hr⟩
    · intro hok
      rcases h4 hok with h | h | h
      · exact Or.inr (Or.inr (Or.inl h))
      · exact Or.inr (Or.inr (Or.inr (Or.inl h)))
      · exact Or.inr (Or.inr (Or.inr (Or.inr h)))
    · rintro ⟨-, -, hm, he⟩
      exact h6 ⟨hm, he⟩
  · rcases hd : run_command env.disableOutcome with ⟨dOk, dOut, dErr⟩
    cases dOk
    · have hbody : ensure_wlan1_ap_mode env =
          { ok := false,
            msg := "Failed to disable wpa_supplicant@wlan1: " ++ dErr,
            issues := ["wpa_supplicant@wlan1 is running (should be disabled)"],
            fixes := [],
            actions := [.isActiveWpa, .disableWpa] } := by
        unfold ensure_wlan1_ap_mode
        rw [hw, hd]
        rfl
      rw [hbody]
      refine ⟨?_, ?_, ?_, ?_, ?_, ?_⟩
      · intro _
        simp [List.count_singleton_self]
      · intro _
        refine ⟨rfl, ?_⟩
        intro h
        simp at h
      · rintro ⟨h1', -⟩
        simp at h1'
      · intro _
        exact Or.inl rfl
      · rintro ⟨h1', -⟩
        simp at h1'
      · intro hm
        simp at hm
    · rcases hs : run_command env.stopOutcome with ⟨sOk, sOut, sErr⟩
      cases sOk
      · have hbody : ensure_wlan1_ap_mode env =
            { ok := false,
              msg := "Failed to stop wpa_supplicant@wlan1: " ++ sErr,
              issues := ["wpa_supplicant@wlan1 is running (should be disabled)"],
              fixes := ["Disabled wpa_supplicant@wlan1"],
              actions := [.isActiveWpa, .disableWpa, .stopWpa] } := by
          unfold ensure_wlan1_ap_mode
          rw [hw, hd, hs]
          rfl
        rw [hbody]
        refine ⟨?_, ?_, ?_, ?_, ?_, ?_⟩
        · intro _
          simp [List.count_singleton_self]
        · intro _
          exact ⟨rfl, fun _ => rfl⟩
        · rintro ⟨-, h2', -⟩
          simp at h2'
        · intro _
          exact Or.inr (Or.inl rfl)
        · rintro ⟨-, h2', -⟩
          simp at h2'
        · intro hm
          simp at hm
      · have hbody : ensure_wlan1_ap_mode env =
            remStep2 env
              ["wpa_supplicant@wlan1 is running (should be disabled)"]
              ["Disabled wpa_supplicant@wlan1", "Stopped wpa_supplicant@wlan1"]
              [.isActiveWpa, .disableWpa, .stopWpa] := by
          unfold ensure_wlan1_ap_mode
          rw [hw, hd, hs]
          rfl
        rw [hbody]
        obtain ⟨ex, tail, h1, h2, h3, h4, h5, h6, h7⟩ :=
          remStep2_spec env
            ["wpa_supplicant@wlan1 is running (should be disabled)"]
            ["Disabled wpa_supplicant@wlan1", "Stopped wpa_supplicant@wlan1"]
            [.isActiveWpa, .disableWpa, .stopWpa] (by decide)
        refine ⟨?_, ?_, ?_, ?_, ?_, h7⟩
        · intro _
          rw [h1, List.count_append, List.count_eq_zero.mpr h2]
          decide
        · intro _
          rw [h3]
          constructor
          · rw [List.take_append_of_le_length (by decide)]
            rfl
          · intro _
            rw [List.take_append_of_le_length (by decide)]
            rfl
        · rintro ⟨-, -, hm, he, hr⟩
          exact h5 ⟨hm, he, hr⟩
        · intro hok
          rcases h4 hok with h | h | h
          · exact Or.inr (Or.inr (Or.inl h))
          · exact Or.inr (Or.inr (Or.inr (Or.inl h)))
          · exact Or.inr (Or.inr (Or.inr (Or.inr h)))
        · rintro ⟨-, -, hm, he⟩
          exact h6 ⟨hm, he⟩

/-- Witness for `C5_ensure_wlan1_ap_mode_contract`: an environment with the
station-mode manager active and every remediation command succeeding. -/
theorem C5_ensure_wlan1_ap_mode_contract_witness :
    List.count "wpa_supplicant@wlan1 is running (should be disabled)"
      (ensure_wlan1_ap_mode
        { wpaActiveOutcome := .completed 0 "active" "",
          disableOutcome := .completed 0 "" "",
          stopOutcome := .completed 0 "" "",
          nmcliOutcome := .completed 1 "" "",
          mvOutcome := .completed 0 "" "",
          reloadOutcome := .completed 0 "" "",
          conf1 := none, conf2 := none,
          hostapdEnabledOutcome := .completed 0 "enabled" "",
          enableOutcome := .completed 0 "" "",
          restartOutcome := .completed 0 "" "" }).issues = 1 ∧
    (ensure_wlan1_ap_mode
        { wpaActiveOutcome := .completed 0 "active" "",
          disableOutcome := .completed 0 "" "",
          stopOutcome := .completed 0 "" "",
          nmcliOutcome := .completed 1 "" "",
          mvOutcome := .completed 0 "" "",
          reloadOutcome := .completed 0 "" "",
          conf1 := none, conf2 := none,
          hostapdEnabledOutcome := .completed 0 "enabled" "",
          enableOutcome := .completed 0 "" "",
          restartOutcome := .completed 0 "" "" }).ok = true ∧
    (ensure_wlan1_ap_mode
        { wpaActiveOutcome := .completed 0 "active" "",
          disableOutcome := .completed 0 "" "",
          stopOutcome := .completed 0 "" "",
          nmcliOutcome := .completed 1 "" "",
          mvOutcome := .completed 0 "" "",
          reloadOutcome := .completed 0 "" "",
          conf1 := none, conf2 := none,
          hostapdEnabledOutcome := .completed 0 "enabled" "",
          enableOutcome := .completed 0 "" "",
          restartOutcome := .completed 0 "" "" }).actions.getLast? =
      some RemAction.restartHostapd :=
  ⟨(C5_ensure_wlan1_ap_mode_contract _).1 (by decide),
   (C5_ensure_wlan1_ap_mode_contract _).2.2.1 (by decide),
   (C5_ensure_wlan1_ap_mode_contract _).2.2.2.2.1 (by decide)⟩

end PiRouter
